import Mathlib

/-!
Shallow embedding of the focus-mode coordinator and the autonomous agent
navigator of the portfolio scene (`src/scenes/CyberpunkOffice.js` and
`src/components/InteractiveElements.js`).

Modelling conventions:
* JavaScript numbers are modelled as `ℚ`.  `Math.sqrt` feeds arithmetic in
  `updateRobotMovement`, so the step functions are parameterised by an
  abstract square-root routine `sqrtQ : ℚ → ℚ` (JS `Math.sqrt` is itself an
  approximation).  Where the source only *compares* a Euclidean distance with
  a nonnegative constant (`distanceTo(p) > c`), the comparison is embedded
  exactly as the equivalent squared comparison over `ℚ`.
* `Math.random()` draws are modelled as explicit inputs: a stream
  `rnd : ℕ → ℚ × ℚ` of raw unit-interval pairs consumed sequentially by the
  rejection sampler, and a single draw `r : ℚ` for the retarget interval.
* `Date.now()` is an explicit `now : ℚ` argument (milliseconds).
* GSAP tweens: the logical state of a tween is its destination, so a camera
  animation is embedded by writing its destination into the camera-pose
  fields at the moment the tween starts; completion callbacks are delivered
  as separate events, with the newest tween on a property superseding a
  pending one (the last-write-wins behaviour described by the design).
* Purely cosmetic outputs that feed back into nothing (wheel spin, arm
  tweens, heading lerp via `atan2`, panel re-orientation, content fade
  effects, console logging) are not carried in the state.
-/

namespace Portfolio

/-- A THREE.Vector3, restricted to exact rational coordinates. -/
structure Vec3 where
  x : ℚ
  y : ℚ
  z : ℚ
deriving DecidableEq, Repr

/-- Squared Euclidean distance; `a.distanceTo b > c` with `0 ≤ c` is embedded
as `distSq a b > c ^ 2`. -/
def Vec3.distSq (a b : Vec3) : ℚ :=
  (a.x - b.x) ^ 2 + (a.y - b.y) ^ 2 + (a.z - b.z) ^ 2

/-- One axis-aligned obstacle rectangle from `this.obstacles`
(CyberpunkOffice.js constructor). -/
structure Obstacle where
  x : ℚ
  z : ℚ
  width : ℚ
  depth : ℚ
deriving DecidableEq, Repr

/-- The obstacle list built in the CyberpunkOffice constructor: main desk,
chair, second desk, CPU tower, and the four hologram projectors. -/
def obstacles : List Obstacle :=
  [ ⟨0, 0, 14, 8⟩
  , ⟨0, 5, 3, 3⟩
  , ⟨15, -8, 8, 6⟩
  , ⟨8, 2, 2, 2⟩
  , ⟨-25, 0, 4, 4⟩
  , ⟨0, -30, 4, 4⟩
  , ⟨25, 0, 4, 4⟩
  , ⟨0, 25, 4, 4⟩ ]

/-- The scene boundary constant (`sceneBoundary = 40` in `checkCollision`). -/
def sceneBoundary : ℚ := 40

/-- The per-obstacle body of the loop in `checkCollision`: the inflated agent
footprint against one obstacle rectangle, with the source's strict
inequalities. -/
def overlapsObstacle (o : Obstacle) (x z robotRadius : ℚ) : Bool :=
  decide (x + robotRadius > o.x - o.width / 2) &&
  decide (x - robotRadius < o.x + o.width / 2) &&
  decide (z + robotRadius > o.z - o.depth / 2) &&
  decide (z - robotRadius < o.z + o.depth / 2)

/-- `checkCollision(x, z, robotRadius = 2)` from CyberpunkOffice.js: true if
the inflated footprint overlaps some obstacle (strict AABB test) or the point
is outside the scene boundary. -/
def checkCollision (obs : List Obstacle) (x z robotRadius : ℚ) : Bool :=
  obs.any (fun o => overlapsObstacle o x z robotRadius) ||
  decide (|x| > sceneBoundary) || decide (|z| > sceneBoundary)

/-- The closed-interval variant of the overlap test, written from the spec's
words ("closed-interval AABB overlap test", touching boundaries count as
overlap); used only to compare the spec against `checkCollision`. -/
def specClosedBlocked (x z robotRadius : ℚ) : Bool :=
  obstacles.any (fun o =>
    decide (x + robotRadius ≥ o.x - o.width / 2) &&
    decide (x - robotRadius ≤ o.x + o.width / 2) &&
    decide (z + robotRadius ≥ o.z - o.depth / 2) &&
    decide (z - robotRadius ≤ o.z + o.depth / 2)) ||
  decide (|x| > sceneBoundary) || decide (|z| > sceneBoundary)

/-- The i-th candidate point examined by `findValidPosition`: two fresh
`Math.random()` draws scaled by `(u - 0.5) * 60` into the sample square. -/
def candidate (rnd : ℕ → ℚ × ℚ) (i : ℕ) : ℚ × ℚ :=
  (((rnd i).1 - 1/2) * 60, ((rnd i).2 - 1/2) * 60)

/-- The attempt loop of `findValidPosition`, with the remaining fuel and the
index of the next random draw made explicit. -/
def findValidPositionAux (rnd : ℕ → ℚ × ℚ) (currentX currentZ : ℚ) :
    ℕ → ℕ → ℚ × ℚ
  | 0, _ => (currentX, currentZ)
  | fuel + 1, i =>
    let c := candidate rnd i
    if checkCollision obstacles c.1 c.2 2 = false then c
    else findValidPositionAux rnd currentX currentZ fuel (i + 1)

/-- `findValidPosition(currentX, currentZ, maxAttempts = 10)` from
CyberpunkOffice.js: rejection-sample up to `maxAttempts` random points,
return the first collision-free one, else the current position unchanged. -/
def findValidPosition (rnd : ℕ → ℚ × ℚ) (currentX currentZ : ℚ)
    (maxAttempts : ℕ) : ℚ × ℚ :=
  findValidPositionAux rnd currentX currentZ maxAttempts 0

/-- Instrumentation of the same loop: how many candidates are examined. -/
def findValidPositionTries (rnd : ℕ → ℚ × ℚ) : ℕ → ℕ → ℕ
  | 0, _ => 0
  | fuel + 1, i =>
    let c := candidate rnd i
    if checkCollision obstacles c.1 c.2 2 = false then 1
    else 1 + findValidPositionTries rnd fuel (i + 1)

/-- The navigation fields of `robot.userData` plus the robot's (x, z)
position (the robot group's y stays 0).  Wheel handles and limb handles are
animation cosmetics and are not carried. -/
structure RobotNav where
  posX : ℚ
  posZ : ℚ
  targetX : ℚ
  targetZ : ℚ
  isMoving : Bool
  lastDirectionChange : ℚ
  moveSpeed : ℚ
deriving DecidableEq, Repr

/-- The retarget block of `updateRobotMovement`: when more than
`3000 + Math.random() * 2000` ms have elapsed since `lastDirectionChange`,
draw a fresh target via `findValidPosition` near the current position, reset
the timer and start moving. -/
def retargetPhase (rnd : ℕ → ℚ × ℚ) (r now : ℚ) (s : RobotNav) : RobotNav :=
  if now - s.lastDirectionChange > 3000 + r * 2000 then
    let p := findValidPosition rnd s.posX s.posZ 10
    { s with targetX := p.1, targetZ := p.2,
             lastDirectionChange := now, isMoving := true }
  else s

/-- The movement block of `updateRobotMovement`: while moving, either stop
within 1 unit of the target, commit the proposed step when it is
collision-free, or keep still and redraw the target when it is blocked.
Wheel rotation and the heading lerp (visual only) are not carried. -/
def movePhase (sqrtQ : ℚ → ℚ) (rnd2 : ℕ → ℚ × ℚ) (s : RobotNav) : RobotNav :=
  if s.isMoving then
    let dx := s.targetX - s.posX
    let dz := s.targetZ - s.posZ
    let distance := sqrtQ (dx * dx + dz * dz)
    if distance > 1 then
      let moveX := dx / distance * s.moveSpeed
      let moveZ := dz / distance * s.moveSpeed
      let nextX := s.posX + moveX
      let nextZ := s.posZ + moveZ
      if checkCollision obstacles nextX nextZ 2 = false then
        { s with posX := nextX, posZ := nextZ }
      else
        let p := findValidPosition rnd2 s.posX s.posZ 10
        { s with targetX := p.1, targetZ := p.2 }
    else
      { s with isMoving := false }
  else s

/-- `updateRobotMovement()` from CyberpunkOffice.js: a no-op while
`robotInteractionMode` is set, otherwise the retarget check followed by the
movement step.  The two `findValidPosition` call sites consume disjoint
stretches of the random stream. -/
def updateRobotMovement (sqrtQ : ℚ → ℚ) (rnd : ℕ → ℚ × ℚ) (r : ℚ)
    (interactionMode : Bool) (now : ℚ) (s : RobotNav) : RobotNav :=
  if interactionMode then s
  else movePhase sqrtQ (fun i => rnd (i + 10)) (retargetPhase rnd r now s)

/-- The robot group's y coordinate: `robotGroup.position.set(x, 0, z)`. -/
def robotPosY : ℚ := 0

/-- The four fixed hologram-panel world positions (`screenPositions` in
`focusOnHologramScreen`): ABOUT, PROJECTS, SKILLS, CONTACT. -/
def screenPositions : Fin 4 → Vec3
  | 0 => ⟨-25, 10, 0⟩
  | 1 => ⟨0, 10, -30⟩
  | 2 => ⟨25, 10, 0⟩
  | 3 => ⟨0, 10, 25⟩

/-- `frontDistance` in `getFrontCameraPosition`. -/
def frontDistance : ℚ := 12

/-- `getFrontCameraPosition(screenIndex, screenPosition)`: the "front of
panel" camera destination, offset from the panel along its facing axis. -/
def getFrontCameraPosition (i : Fin 4) : Vec3 :=
  let s := screenPositions i
  match i with
  | 0 => ⟨s.x + frontDistance, s.y, s.z⟩
  | 1 => ⟨s.x, s.y, s.z + frontDistance⟩
  | 2 => ⟨s.x - frontDistance, s.y, s.z⟩
  | 3 => ⟨s.x, s.y, s.z - frontDistance⟩

/-- The phone group's fixed world position
(`phoneGroup.position.set(-4.2, 2.95, 1.8)`). -/
def phonePosition : Vec3 := ⟨-21/5, 59/20, 9/5⟩

/-- The default camera pose that `returnToDefaultView` animates back to. -/
def defaultCameraPosition : Vec3 := ⟨0, 8, 12⟩

/-- The default orbit target (`controls.target`) of `returnToDefaultView`. -/
def defaultCameraTarget : Vec3 := ⟨0, 5, -3/2⟩

/-- The joint mutable state of the `CyberpunkOffice` instance and the
`Portfolio3D` interaction layer that the focus-mode claims range over.
`activeHologramIndex = none` models the source's `-1` sentinel.  The
`pending*` fields model the completion callbacks of in-flight entry tweens
(delivered by the corresponding completion events). -/
structure OfficeState where
  robotInteractionMode : Bool
  robotHelpModeStartTime : Option ℚ
  originalCameraPosition : Option Vec3
  originalCameraTarget : Option Vec3
  phoneInteractionMode : Bool
  phoneHologramVisible : Bool
  cameraPos : Vec3
  controlsTarget : Vec3
  robotNav : RobotNav
  activeHologramIndex : Option (Fin 4)
  isHologramActive : Bool
  autoRotate : Bool
  pendingFocusAnim : Option (Fin 4)
  pendingPhoneAnim : Bool
deriving DecidableEq, Repr

/-- The robot's world position as a `Vec3` (used by the distance checks). -/
def robotWorldPos (s : OfficeState) : Vec3 :=
  ⟨s.robotNav.posX, robotPosY, s.robotNav.posZ⟩

/-- `enterPhoneMode(camera, controls)`: save the camera pose into the shared
snapshot fields, animate toward the phone-hologram viewing pose, and arrange
for the hologram overlay to be shown when the tween completes. -/
def enterPhoneMode (s : OfficeState) : OfficeState :=
  let hologramPosition : Vec3 :=
    ⟨phonePosition.x, phonePosition.y + 1, phonePosition.z⟩
  let targetPosition : Vec3 :=
    ⟨phonePosition.x - 9/5, hologramPosition.y + 3/10, phonePosition.z + 3/2⟩
  { s with
    phoneInteractionMode := true
    originalCameraPosition := some s.cameraPos
    originalCameraTarget := some s.controlsTarget
    cameraPos := targetPosition
    controlsTarget := hologramPosition
    pendingPhoneAnim := true }

/-- `exitPhoneMode(camera, controls)`: hide the overlay and animate the
camera back to the saved snapshot (which is read, not cleared).  The `getD`
fallbacks stand in for the source's unguarded field reads, which are only
reached with the snapshot set. -/
def exitPhoneMode (s : OfficeState) : OfficeState :=
  { s with
    phoneInteractionMode := false
    phoneHologramVisible := false
    cameraPos := s.originalCameraPosition.getD s.cameraPos
    controlsTarget := s.originalCameraTarget.getD s.controlsTarget
    pendingPhoneAnim := false }

/-- `handlePhoneClick(camera, controls)`: toggle device focus. -/
def handlePhoneClick (s : OfficeState) : OfficeState :=
  if s.phoneInteractionMode then exitPhoneMode s else enterPhoneMode s

/-- `autoClosePhoneHologram()` from InteractiveElements.js: exit phone mode
only when it is active AND its hologram overlay is already visible. -/
def autoClosePhoneHologram (s : OfficeState) : OfficeState :=
  if s.phoneInteractionMode && s.phoneHologramVisible then exitPhoneMode s
  else s

/-- `activateRobotHelpMode(camera, controls)`: record the entry timestamp,
save the camera pose into the shared snapshot fields, freeze the robot, and
animate the camera to frame the robot's upper body.  (Yes/No button
visibility is presentation only.) -/
def activateRobotHelpMode (now : ℚ) (s : OfficeState) : OfficeState :=
  if s.robotInteractionMode then s
  else
    { s with
      robotInteractionMode := true
      robotHelpModeStartTime := some now
      originalCameraPosition := some s.cameraPos
      originalCameraTarget := some s.controlsTarget
      robotNav := { s.robotNav with isMoving := false }
      cameraPos := ⟨s.robotNav.posX + 8, robotPosY + 5, s.robotNav.posZ + 8⟩
      controlsTarget := ⟨s.robotNav.posX, robotPosY + 5, s.robotNav.posZ⟩ }

/-- `deactivateRobotHelpMode(camera, controls)`: clear the mode and its
timestamp, animate the camera back to the saved snapshot when both snapshot
fields are set (the snapshot itself is not cleared), and reset the robot's
retarget clock so a new target is drawn on the next eligible tick.  (The
100 ms `setTimeout` that rewrites the clock to `now - 4000` is a cosmetic
refinement of the same forced retarget and is not carried.) -/
def deactivateRobotHelpMode (s : OfficeState) : OfficeState :=
  if !s.robotInteractionMode then s
  else
    let restored :=
      match s.originalCameraPosition, s.originalCameraTarget with
      | some p, some t => (p, t)
      | _, _ => (s.cameraPos, s.controlsTarget)
    { s with
      robotInteractionMode := false
      robotHelpModeStartTime := none
      cameraPos := restored.1
      controlsTarget := restored.2
      robotNav := { s.robotNav with lastDirectionChange := 0, isMoving := false } }

/-- `deactivateHologram()` from InteractiveElements.js. -/
def deactivateHologram (s : OfficeState) : OfficeState :=
  { s with isHologramActive := false, activeHologramIndex := none }

/-- `focusOnHologramScreen(screenIndex)`: auto-close the phone overlay, force
robot help mode closed, make panel `i` the active focus with tracking left
off, and start the 2 s entry tween toward the front-of-panel pose, whose
completion callback will switch tracking on. -/
def focusOnHologramScreen (i : Fin 4) (s : OfficeState) : OfficeState :=
  let s1 := autoClosePhoneHologram s
  let s2 := if s1.robotInteractionMode then deactivateRobotHelpMode s1 else s1
  { s2 with
    activeHologramIndex := some i
    isHologramActive := false
    autoRotate := false
    cameraPos := getFrontCameraPosition i
    controlsTarget := screenPositions i
    pendingFocusAnim := some i }

/-- `returnToDefaultView()`: auto-close the phone overlay, force robot help
mode closed, deactivate the hologram focus, and animate back to the fixed
default pose (NOT a saved snapshot). -/
def returnToDefaultView (s : OfficeState) : OfficeState :=
  let s1 := autoClosePhoneHologram s
  let s2 := if s1.robotInteractionMode then deactivateRobotHelpMode s1 else s1
  let s3 := deactivateHologram s2
  { s3 with
    autoRotate := false
    cameraPos := defaultCameraPosition
    controlsTarget := defaultCameraTarget
    pendingFocusAnim := none }

/-- A pointer hit on the robot body (`onHologramClick`, robot branch): only
acted on outside help mode; the phone overlay is auto-closed first. -/
def onRobotClick (now : ℚ) (s : OfficeState) : OfficeState :=
  if s.robotInteractionMode then s
  else activateRobotHelpMode now (autoClosePhoneHologram s)

/-- A pointer hit on the Yes/No help affordances (visible only while help
mode is active); both responses deactivate the mode (Yes additionally opens
the tutorial modal, which is presentation only). -/
def onHelpResponseClick (s : OfficeState) : OfficeState :=
  if s.robotInteractionMode then deactivateRobotHelpMode s else s

/-- `shouldAutoCloseRobotHelp()` from InteractiveElements.js: false outside
help mode or during the 3000 ms grace period; afterwards true exactly when
the camera is more than 25 units, or the orbit target more than 20 units,
from the robot (distances embedded as exact squared comparisons). -/
def shouldAutoCloseRobotHelp (now : ℚ) (s : OfficeState) : Bool :=
  if !s.robotInteractionMode then false
  else if now - (s.robotHelpModeStartTime.getD 0) < 3000 then false
  else
    decide (Vec3.distSq s.cameraPos (robotWorldPos s) > 25 ^ 2) ||
    decide (Vec3.distSq s.controlsTarget (robotWorldPos s) > 20 ^ 2)

/-- `isCameraTargetOnHologram(screenIndex)`: orbit target within 8 units of
the panel's world position. -/
def isCameraTargetOnHologram (s : OfficeState) (i : Fin 4) : Bool :=
  decide (Vec3.distSq (screenPositions i) s.controlsTarget ≤ 8 ^ 2)

/-- The hologram upkeep block at the end of `animate()`: while tracking is
active, deactivate the focused hologram when the orbit target has drifted
off the panel (re-orientation itself is visual only). -/
def trackingUpkeep (t : OfficeState) : OfficeState :=
  if t.isHologramActive then
    match t.activeHologramIndex with
    | some i =>
      if isCameraTargetOnHologram t i then t else deactivateHologram t
    | none => t
  else t

/-- One pass of the `animate()` frame loop, as far as it touches the modelled
state: advance the navigator (`cyberpunkOffice.update()`), then the robot
help auto-close policy, then the hologram tracking upkeep. -/
def tickStep (sqrtQ : ℚ → ℚ) (rnd : ℕ → ℚ × ℚ) (r now : ℚ)
    (s : OfficeState) : OfficeState :=
  let s1 := { s with robotNav :=
    updateRobotMovement sqrtQ rnd r s.robotInteractionMode now s.robotNav }
  let s2 :=
    if s1.robotInteractionMode && shouldAutoCloseRobotHelp now s1 then
      deactivateRobotHelpMode s1
    else s1
  trackingUpkeep s2

/-- The completion callback of the 2 s hologram entry tween: only now does
panel tracking switch on. -/
def onFocusAnimComplete (s : OfficeState) : OfficeState :=
  match s.pendingFocusAnim with
  | some _ => { s with isHologramActive := true, pendingFocusAnim := none }
  | none => s

/-- The completion callback of the 1.5 s phone entry tween: the hologram
overlay is created/shown only now. -/
def onPhoneAnimComplete (s : OfficeState) : OfficeState :=
  if s.pendingPhoneAnim then
    { s with phoneHologramVisible := true, pendingPhoneAnim := false }
  else s

/-- A transition request or frame event delivered to the coordinator. -/
inductive Event where
  | clickHologram : Fin 4 → Event
  | clickRobot : ℚ → Event
  | clickPhone : Event
  | clickBack : Event
  | clickHelpResponse : Event
  | moveCamera : Vec3 → Vec3 → Event
  | focusAnimComplete : Event
  | phoneAnimComplete : Event
  | tick : ℚ → ℚ → (ℕ → ℚ × ℚ) → (ℚ → ℚ) → Event

/-- Dispatch one event through the corresponding source operation.
`moveCamera` models the user orbiting the camera between ticks. -/
def step (e : Event) (s : OfficeState) : OfficeState :=
  match e with
  | .clickHologram i => focusOnHologramScreen i s
  | .clickRobot now => onRobotClick now s
  | .clickPhone => handlePhoneClick s
  | .clickBack => returnToDefaultView s
  | .clickHelpResponse => onHelpResponseClick s
  | .moveCamera p t => { s with cameraPos := p, controlsTarget := t }
  | .focusAnimComplete => onFocusAnimComplete s
  | .phoneAnimComplete => onPhoneAnimComplete s
  | .tick now r rnd sqrtQ => tickStep sqrtQ rnd r now s

/-- The state right after scene load: all modes off, the camera at the
default pose, the robot parked at the first collision-free sample of
`findValidPosition(-25, 20)` with `moveSpeed = 0.03`. -/
def initState (rnd0 : ℕ → ℚ × ℚ) : OfficeState :=
  let start := findValidPosition rnd0 (-25) 20 10
  { robotInteractionMode := false
    robotHelpModeStartTime := none
    originalCameraPosition := none
    originalCameraTarget := none
    phoneInteractionMode := false
    phoneHologramVisible := false
    cameraPos := defaultCameraPosition
    controlsTarget := defaultCameraTarget
    robotNav := ⟨start.1, start.2, start.1, start.2, false, 0, 3/100⟩
    activeHologramIndex := none
    isHologramActive := false
    autoRotate := true
    pendingFocusAnim := none
    pendingPhoneAnim := false }

/-- Process a list of events in order. -/
def run (events : List Event) (s : OfficeState) : OfficeState :=
  events.foldl (fun t e => step e t) s

/-- Non-Default mode `HologramFocus` is active: a panel is the current focus. -/
def hologramFocusActive (s : OfficeState) : Bool :=
  s.activeHologramIndex.isSome

/-- Non-Default mode `AgentHelp` is active. -/
def agentHelpActive (s : OfficeState) : Bool :=
  s.robotInteractionMode

/-- Non-Default mode `DeviceFocus` is active. -/
def deviceFocusActive (s : OfficeState) : Bool :=
  s.phoneInteractionMode

/-- How many of the three non-Default modes are active at once. -/
def activeModeCount (s : OfficeState) : ℕ :=
  (if hologramFocusActive s then 1 else 0) +
  (if agentHelpActive s then 1 else 0) +
  (if deviceFocusActive s then 1 else 0)

/-- A fixed degenerate random stream: every candidate of the rejection
sampler lands on the (blocked) scene centre. -/
def centreDraws : ℕ → ℚ × ℚ := fun _ => (1/2, 1/2)

/-- A constant stand-in for the square-root routine, used to instantiate
concrete scenarios (chosen to be exact on the scenario's radicand). -/
def constSqrt (q : ℚ) : ℚ → ℚ := fun _ => q

/-- A concrete state with agent-help and device focus simultaneously flagged
and the phone overlay visible, used to instantiate mode-transition claims. -/
def demoState : OfficeState :=
  { robotInteractionMode := true
    robotHelpModeStartTime := some 0
    originalCameraPosition := some ⟨1, 2, 3⟩
    originalCameraTarget := some ⟨4, 5, 6⟩
    phoneInteractionMode := true
    phoneHologramVisible := true
    cameraPos := ⟨0, 8, 12⟩
    controlsTarget := ⟨0, 5, -3/2⟩
    robotNav := ⟨0, 0, 0, 0, false, 0, 3/100⟩
    activeHologramIndex := none
    isHologramActive := false
    autoRotate := true
    pendingFocusAnim := none
    pendingPhoneAnim := false }

/-- A concrete agent-help session whose camera has been orbited 100 units
away from the agent, used to instantiate the auto-exit policy. -/
def helpState : OfficeState :=
  { robotInteractionMode := true
    robotHelpModeStartTime := some 0
    originalCameraPosition := some ⟨0, 8, 12⟩
    originalCameraTarget := some ⟨0, 5, -3/2⟩
    phoneInteractionMode := false
    phoneHologramVisible := false
    cameraPos := ⟨100, 0, 0⟩
    controlsTarget := ⟨0, 0, 0⟩
    robotNav := ⟨0, 0, 0, 0, false, 0, 3/100⟩
    activeHologramIndex := none
    isHologramActive := false
    autoRotate := false
    pendingFocusAnim := none
    pendingPhoneAnim := false }

/-! ## Theorems -/

/-- C7 counterexample: at `(x, z) = (-9, 0)` with the agent radius 2, the
inflated footprint exactly touches the main desk's left edge.  The code's
strict-inequality test reports no collision, while the closed-interval test
claimed by the spec reports a collision, so the claimed characterisation of
`checkCollision` is false. -/
theorem checkCollision_touching_differs :
    checkCollision obstacles (-9) 0 2 = false ∧
    specClosedBlocked (-9) 0 2 = true := by
  constructor <;>
    norm_num [checkCollision, specClosedBlocked, overlapsObstacle,
      obstacles, sceneBoundary]

/-- C7 (amended): `checkCollision(x, z, robotRadius)` returns true exactly
when the inflated footprint overlaps some obstacle under the OPEN-interval
AABB test (strict inequalities; footprints merely touching an obstacle
boundary do not count), or the point is out of the scene boundary; as a pure
function of its arguments it is deterministic and effect-free. -/
theorem checkCollision_iff (obs : List Obstacle) (x z r : ℚ) :
    checkCollision obs x z r = true ↔
      (∃ o ∈ obs,
        o.x - o.width / 2 < x + r ∧ x - r < o.x + o.width / 2 ∧
        o.z - o.depth / 2 < z + r ∧ z - r < o.z + o.depth / 2) ∨
      sceneBoundary < |x| ∨ sceneBoundary < |z| := by
  simp [checkCollision, overlapsObstacle, List.any_eq_true, and_assoc,
    or_assoc]

/-- All of the first `fuel` candidates starting at draw `i` blocked: the
fallback is returned and every candidate is examined. -/
theorem findValidPositionAux_all_blocked (rnd : ℕ → ℚ × ℚ) (cx cz : ℚ) :
    ∀ fuel i,
      (∀ k, k < fuel →
        checkCollision obstacles (candidate rnd (i + k)).1
          (candidate rnd (i + k)).2 2 = true) →
      findValidPositionAux rnd cx cz fuel i = (cx, cz) ∧
      findValidPositionTries rnd fuel i = fuel := by
  intro fuel
  induction fuel with
  | zero => intro i _; exact ⟨rfl, rfl⟩
  | succ n ih =>
    intro i hall
    have h0 := hall 0 (Nat.succ_pos n)
    rw [Nat.add_zero] at h0
    have hrest : ∀ k, k < n →
        checkCollision obstacles (candidate rnd (i + 1 + k)).1
          (candidate rnd (i + 1 + k)).2 2 = true := by
      intro k hk
      have := hall (k + 1) (Nat.succ_lt_succ hk)
      rwa [show i + (k + 1) = i + 1 + k by omega] at this
    have hih := ih (i + 1) hrest
    constructor
    · rw [findValidPositionAux, h0]
      simpa using hih.1
    · rw [findValidPositionTries]
      simp only [h0, Bool.true_eq_false, if_false]
      rw [hih.2]
      omega

/-- If draw `i + j` is the first collision-free candidate, the loop returns
it. -/
theorem findValidPositionAux_first_free (rnd : ℕ → ℚ × ℚ) (cx cz : ℚ) :
    ∀ fuel i j, j < fuel →
      (∀ k, k < j →
        checkCollision obstacles (candidate rnd (i + k)).1
          (candidate rnd (i + k)).2 2 = true) →
      checkCollision obstacles (candidate rnd (i + j)).1
        (candidate rnd (i + j)).2 2 = false →
      findValidPositionAux rnd cx cz fuel i = candidate rnd (i + j) := by
  intro fuel
  induction fuel with
  | zero => intro i j hj; omega
  | succ n ih =>
    intro i j hj hblocked hfree
    cases j with
    | zero =>
      rw [Nat.add_zero] at hfree
      rw [findValidPositionAux, hfree]
      simp
    | succ m =>
      have h0 := hblocked 0 (Nat.succ_pos m)
      rw [Nat.add_zero] at h0
      rw [findValidPositionAux, h0]
      simp only [Bool.true_eq_false, if_false]
      have hrest : ∀ k, k < m →
          checkCollision obstacles (candidate rnd (i + 1 + k)).1
            (candidate rnd (i + 1 + k)).2 2 = true := by
        intro k hk
        have := hblocked (k + 1) (Nat.succ_lt_succ hk)
        rwa [show i + (k + 1) = i + 1 + k by omega] at this
      have hfree2 : checkCollision obstacles (candidate rnd (i + 1 + m)).1
          (candidate rnd (i + 1 + m)).2 2 = false := by
        rwa [show i + (m + 1) = i + 1 + m by omega] at hfree
      have := ih (i + 1) m (Nat.lt_of_succ_lt_succ hj) hrest hfree2
      rw [this, show i + 1 + m = i + (m + 1) by omega]

/-- C6: `findValidPosition(nearX, nearZ, maxAttempts)` examines at most
`maxAttempts` uniformly drawn candidates, each scaled into the sample square
(within `[-30, 30]` on both axes when the raw draws are unit-interval
values); it returns the first candidate that is not blocked; and when every
candidate is blocked it returns `(nearX, nearZ)` unchanged after examining
exactly `maxAttempts` candidates, with no failure case. -/
theorem findValidPosition_spec :
    (∀ (rnd : ℕ → ℚ × ℚ) (cx cz : ℚ) (n : ℕ),
      (∀ i, i < n →
        checkCollision obstacles (candidate rnd i).1 (candidate rnd i).2 2
          = true) →
      findValidPosition rnd cx cz n = (cx, cz) ∧
      findValidPositionTries rnd n 0 = n) ∧
    (∀ (rnd : ℕ → ℚ × ℚ) (cx cz : ℚ) (n j : ℕ), j < n →
      (∀ i, i < j →
        checkCollision obstacles (candidate rnd i).1 (candidate rnd i).2 2
          = true) →
      checkCollision obstacles (candidate rnd j).1 (candidate rnd j).2 2
        = false →
      findValidPosition rnd cx cz n = candidate rnd j) ∧
    (∀ (rnd : ℕ → ℚ × ℚ) (i : ℕ),
      0 ≤ (rnd i).1 → (rnd i).1 < 1 → 0 ≤ (rnd i).2 → (rnd i).2 < 1 →
      -30 ≤ (candidate rnd i).1 ∧ (candidate rnd i).1 < 30 ∧
      -30 ≤ (candidate rnd i).2 ∧ (candidate rnd i).2 < 30) := by
  refine ⟨?_, ?_, ?_⟩
  · intro rnd cx cz n hall
    exact findValidPositionAux_all_blocked rnd cx cz n 0
      (by intro k hk; simpa using hall k hk)
  · intro rnd cx cz n j hj hblocked hfree
    have := findValidPositionAux_first_free rnd cx cz n 0 j hj
      (by intro k hk; simpa using hblocked k hk) (by simpa using hfree)
    simpa [findValidPosition] using this
  · intro rnd i h1 h2 h3 h4
    refine ⟨?_, ?_, ?_, ?_⟩ <;> simp only [candidate] <;> nlinarith

/-- C6 witness: with every draw landing on the blocked scene centre, the
sampler returns the seed `(5, 25)` unchanged after exactly 10 attempts. -/
theorem findValidPosition_spec_witness :
    findValidPosition centreDraws 5 25 10 = (5, 25) ∧
    findValidPositionTries centreDraws 10 0 = 10 := by
  have h := findValidPosition_spec.1 centreDraws 5 25 10 (by
    intro i _
    norm_num [candidate, centreDraws, checkCollision, overlapsObstacle,
      obstacles, sceneBoundary])
  exact h

/-- `retargetPhase` never moves the robot. -/
theorem retargetPhase_pos (rnd : ℕ → ℚ × ℚ) (r now : ℚ) (s : RobotNav) :
    (retargetPhase rnd r now s).posX = s.posX ∧
    (retargetPhase rnd r now s).posZ = s.posZ := by
  unfold retargetPhase
  split <;> exact ⟨rfl, rfl⟩

/-- `movePhase` never raises `isMoving`. -/
theorem movePhase_isMoving_le (sqrtQ : ℚ → ℚ) (rnd2 : ℕ → ℚ × ℚ)
    (s : RobotNav) :
    (movePhase sqrtQ rnd2 s).isMoving = true → s.isMoving = true := by
  unfold movePhase
  split
  · intro _; assumption
  · intro h; exact h

/-- Any `movePhase` result whose position differs from its input's was
produced by the commit branch, so it passed the collision guard. -/
theorem movePhase_commit_free (sqrtQ : ℚ → ℚ) (rnd2 : ℕ → ℚ × ℚ)
    (s : RobotNav) :
    ((movePhase sqrtQ rnd2 s).posX ≠ s.posX ∨
     (movePhase sqrtQ rnd2 s).posZ ≠ s.posZ) →
    checkCollision obstacles (movePhase sqrtQ rnd2 s).posX
      (movePhase sqrtQ rnd2 s).posZ 2 = false := by
  unfold movePhase
  split
  · dsimp only
    split
    · split
      · intro _
        assumption
      · intro h
        rcases h with h | h <;> exact absurd rfl h
    · intro h
      rcases h with h | h <;> exact absurd rfl h
  · intro h
    rcases h with h | h <;> exact absurd rfl h

/-- C3: on any navigator tick, if the committed state moved the agent then
the committed position passes `checkCollision` (with the agent radius 2) at
commit time; and when the proposed next position is blocked the agent does
not move this tick, keeps moving-state, and instead redraws its target via
the free-position sampler. -/
theorem updateRobotMovement_collision_safe :
    (∀ (sqrtQ : ℚ → ℚ) (rnd : ℕ → ℚ × ℚ) (r : ℚ) (m : Bool) (now : ℚ)
       (s : RobotNav),
      ((updateRobotMovement sqrtQ rnd r m now s).posX ≠ s.posX ∨
       (updateRobotMovement sqrtQ rnd r m now s).posZ ≠ s.posZ) →
      checkCollision obstacles (updateRobotMovement sqrtQ rnd r m now s).posX
        (updateRobotMovement sqrtQ rnd r m now s).posZ 2 = false) ∧
    (∀ (sqrtQ : ℚ → ℚ) (rnd2 : ℕ → ℚ × ℚ) (s : RobotNav),
      s.isMoving = true →
      1 < sqrtQ ((s.targetX - s.posX) * (s.targetX - s.posX) +
                 (s.targetZ - s.posZ) * (s.targetZ - s.posZ)) →
      checkCollision obstacles
        (s.posX + (s.targetX - s.posX) /
          sqrtQ ((s.targetX - s.posX) * (s.targetX - s.posX) +
                 (s.targetZ - s.posZ) * (s.targetZ - s.posZ)) * s.moveSpeed)
        (s.posZ + (s.targetZ - s.posZ) /
          sqrtQ ((s.targetX - s.posX) * (s.targetX - s.posX) +
                 (s.targetZ - s.posZ) * (s.targetZ - s.posZ)) * s.moveSpeed)
        2 = true →
      (movePhase sqrtQ rnd2 s).posX = s.posX ∧
      (movePhase sqrtQ rnd2 s).posZ = s.posZ ∧
      (movePhase sqrtQ rnd2 s).isMoving = true ∧
      (movePhase sqrtQ rnd2 s).targetX
        = (findValidPosition rnd2 s.posX s.posZ 10).1 ∧
      (movePhase sqrtQ rnd2 s).targetZ
        = (findValidPosition rnd2 s.posX s.posZ 10).2) := by
  constructor
  · intro sqrtQ rnd r m now s
    unfold updateRobotMovement
    split
    · intro h
      rcases h with h | h <;> exact absurd rfl h
    · intro h
      have hp := retargetPhase_pos rnd r now s
      have h2 : (movePhase sqrtQ (fun i => rnd (i + 10))
          (retargetPhase rnd r now s)).posX
            ≠ (retargetPhase rnd r now s).posX ∨
          (movePhase sqrtQ (fun i => rnd (i + 10))
          (retargetPhase rnd r now s)).posZ
            ≠ (retargetPhase rnd r now s).posZ := by
        rcases h with h | h
        · exact Or.inl (by rw [hp.1]; exact h)
        · exact Or.inr (by rw [hp.2]; exact h)
      exact movePhase_commit_free sqrtQ (fun i => rnd (i + 10))
        (retargetPhase rnd r now s) h2
  · intro sqrtQ rnd2 s hmov hdist hblocked
    unfold movePhase
    rw [hmov]
    simp only [if_true]
    rw [if_pos hdist, if_neg (by rw [hblocked]; simp)]
    exact ⟨rfl, rfl, rfl, rfl, rfl⟩

/-- C3 witness: part 1 at a free step near `(20, 20)` (target 8 units east,
the square root's argument being 64), and part 2 at `(3.9, 25)` heading into
the inflated footprint of the front hologram projector. -/
theorem updateRobotMovement_collision_safe_witness :
    (checkCollision obstacles
      (updateRobotMovement (constSqrt 8) centreDraws 0 false 0
        ⟨20, 20, 28, 20, true, 0, 3/100⟩).posX
      (updateRobotMovement (constSqrt 8) centreDraws 0 false 0
        ⟨20, 20, 28, 20, true, 0, 3/100⟩).posZ 2 = false) ∧
    ((movePhase (constSqrt 10) centreDraws
        ⟨39/10, 25, -61/10, 25, true, 0, 3/100⟩).posX = 39/10 ∧
     (movePhase (constSqrt 10) centreDraws
        ⟨39/10, 25, -61/10, 25, true, 0, 3/100⟩).posZ = 25) := by
  constructor
  · have hstep : updateRobotMovement (constSqrt 8) centreDraws 0 false 0
        ⟨20, 20, 28, 20, true, 0, 3/100⟩
        = ⟨2003/100, 20, 28, 20, true, 0, 3/100⟩ := by
      norm_num [updateRobotMovement, retargetPhase, movePhase, constSqrt,
        checkCollision, overlapsObstacle, obstacles, sceneBoundary, abs_le]
    refine updateRobotMovement_collision_safe.1 (constSqrt 8) centreDraws 0
      false 0 ⟨20, 20, 28, 20, true, 0, 3/100⟩ (Or.inl ?_)
    rw [hstep]
    norm_num
  · have h := updateRobotMovement_collision_safe.2 (constSqrt 10) centreDraws
      ⟨39/10, 25, -61/10, 25, true, 0, 3/100⟩ rfl
      (by norm_num [constSqrt])
      (by norm_num [constSqrt, checkCollision, overlapsObstacle, obstacles,
        sceneBoundary])
    exact ⟨h.1, h.2.1⟩

/-- C8: the Idle-to-Moving transition happens only when more than
`3000 + r * 2000` ms (for the tick's unit-interval random draw `r`, hence
strictly more than 3000 ms and strictly less than 5000 ms) have elapsed
since the stored retarget timestamp; conversely, any eligible tick at 5000
or more elapsed ms fires the retarget, drawing a fresh target and resetting
the timestamp.  (The forced retarget after exiting agent-help mode works by
rewinding the stored timestamp, so these bounds are stated against the
stored `lastDirectionChange`.) -/
theorem retarget_interval_bounds :
    (∀ (sqrtQ : ℚ → ℚ) (rnd : ℕ → ℚ × ℚ) (r : ℚ) (m : Bool) (now : ℚ)
       (s : RobotNav), 0 ≤ r →
      s.isMoving = false →
      (updateRobotMovement sqrtQ rnd r m now s).isMoving = true →
      3000 < now - s.lastDirectionChange) ∧
    (∀ (rnd : ℕ → ℚ × ℚ) (r now : ℚ) (s : RobotNav), r < 1 →
      5000 ≤ now - s.lastDirectionChange →
      (retargetPhase rnd r now s).isMoving = true ∧
      (retargetPhase rnd r now s).lastDirectionChange = now) := by
  constructor
  · intro sqrtQ rnd r m now s hr hidle hmove
    rw [updateRobotMovement] at hmove
    split at hmove
    · rw [hidle] at hmove
      exact absurd hmove (by simp)
    · have h2 := movePhase_isMoving_le sqrtQ (fun i => rnd (i + 10))
        (retargetPhase rnd r now s) hmove
      rw [retargetPhase] at h2
      split at h2
      · have h2000 : (0 : ℚ) ≤ r * 2000 := by positivity
        linarith
      · rw [hidle] at h2
        exact absurd h2 (by simp)
  · intro rnd r now s hr helapsed
    have hcond : now - s.lastDirectionChange > 3000 + r * 2000 := by
      nlinarith
    rw [retargetPhase, if_pos hcond]
    exact ⟨rfl, rfl⟩

/-- C8 witness: with the timestamp at 0 an idle agent parked at the free
point `(20, 20)` starts moving on a tick at `now = 4000` (elapsed beyond
3000), and an eligible tick at `now = 5000` with interval draw 1/2 fires
the retarget and resets the timestamp. -/
theorem retarget_interval_bounds_witness :
    (3000 : ℚ) < 4000 - 0 ∧
    (retargetPhase centreDraws (1/2) 5000
      ⟨20, 20, 20, 20, false, 0, 3/100⟩).lastDirectionChange = 5000 := by
  constructor
  · exact retarget_interval_bounds.1 (constSqrt 8) centreDraws 0 false 4000
      ⟨20, 20, 20, 20, false, 0, 3/100⟩ (le_refl 0) rfl
      (by norm_num [updateRobotMovement, retargetPhase, movePhase, constSqrt,
        findValidPosition, findValidPositionAux, candidate, centreDraws,
        checkCollision, overlapsObstacle, obstacles, sceneBoundary, abs_le])
  · exact (retarget_interval_bounds.2 centreDraws (1/2) 5000
      ⟨20, 20, 20, 20, false, 0, 3/100⟩ (by norm_num) (by norm_num)).2

/-- C10: once the elapsed time beats the tick's random interval, the
per-tick retarget check fires even though the agent is already Moving and
its current target was neither reached nor blocked: a fresh target is drawn
near the current position, the retarget clock resets, and the agent's
position is untouched by the retarget itself. -/
theorem moving_retarget_still_fires :
    ∀ (rnd : ℕ → ℚ × ℚ) (r now : ℚ) (s : RobotNav),
      s.isMoving = true →
      3000 + r * 2000 < now - s.lastDirectionChange →
      (retargetPhase rnd r now s).targetX
        = (findValidPosition rnd s.posX s.posZ 10).1 ∧
      (retargetPhase rnd r now s).targetZ
        = (findValidPosition rnd s.posX s.posZ 10).2 ∧
      (retargetPhase rnd r now s).lastDirectionChange = now ∧
      (retargetPhase rnd r now s).isMoving = true ∧
      (retargetPhase rnd r now s).posX = s.posX ∧
      (retargetPhase rnd r now s).posZ = s.posZ := by
  intro rnd r now s _ hcond
  rw [retargetPhase, if_pos hcond]
  exact ⟨rfl, rfl, rfl, rfl, rfl, rfl⟩

/-- C10 witness: a Moving agent at `(20, 20)` with an un-reached target
`(28, 20)`, draw 0 and elapsed 4000 ms redraws its target and resets the
clock to `now`. -/
theorem moving_retarget_still_fires_witness :
    (retargetPhase centreDraws 0 4000
      ⟨20, 20, 28, 20, true, 0, 3/100⟩).lastDirectionChange = 4000 ∧
    (retargetPhase centreDraws 0 4000
      ⟨20, 20, 28, 20, true, 0, 3/100⟩).targetX
      = (findValidPosition centreDraws 20 20 10).1 := by
  have h := moving_retarget_still_fires centreDraws 0 4000
    ⟨20, 20, 28, 20, true, 0, 3/100⟩ rfl (by norm_num)
  exact ⟨h.2.2.1, h.1⟩

/-- `deactivateRobotHelpMode` always leaves the mode flag cleared. -/
theorem deactivateRobotHelpMode_mode (s : OfficeState) :
    (deactivateRobotHelpMode s).robotInteractionMode = false := by
  rw [deactivateRobotHelpMode]
  split
  · rename_i h
    simpa using h
  · rfl

/-- `deactivateRobotHelpMode` does not touch device-focus state. -/
theorem deactivateRobotHelpMode_phone (s : OfficeState) :
    (deactivateRobotHelpMode s).phoneInteractionMode = s.phoneInteractionMode
      := by
  rw [deactivateRobotHelpMode]
  split <;> rfl

/-- `deactivateRobotHelpMode` does not touch hologram tracking. -/
theorem deactivateRobotHelpMode_tracking (s : OfficeState) :
    (deactivateRobotHelpMode s).isHologramActive = s.isHologramActive := by
  rw [deactivateRobotHelpMode]
  split <;> rfl

/-- `autoClosePhoneHologram` does not touch agent-help state. -/
theorem autoClosePhoneHologram_robot (s : OfficeState) :
    (autoClosePhoneHologram s).robotInteractionMode = s.robotInteractionMode
      := by
  rw [autoClosePhoneHologram]
  split <;> rfl

/-- `autoClosePhoneHologram` clears device focus exactly when the overlay is
already visible. -/
theorem autoClosePhoneHologram_phone (s : OfficeState) :
    (autoClosePhoneHologram s).phoneInteractionMode
      = (s.phoneInteractionMode && !s.phoneHologramVisible) := by
  cases hp : s.phoneInteractionMode <;> cases hv : s.phoneHologramVisible <;>
    simp [autoClosePhoneHologram, exitPhoneMode, hp, hv]

/-- `autoClosePhoneHologram` does not touch hologram tracking. -/
theorem autoClosePhoneHologram_tracking (s : OfficeState) :
    (autoClosePhoneHologram s).isHologramActive = s.isHologramActive := by
  rw [autoClosePhoneHologram]
  split <;> rfl

/-- C1 counterexample: from the freshly loaded scene, the request sequence
"click the agent, then click the phone" leaves BOTH agent-help mode and
device focus active at once, because the phone click enters device focus
without exiting the help session. -/
theorem mode_mutex_counterexample :
    activeModeCount (run [Event.clickRobot 0, Event.clickPhone]
      (initState centreDraws)) = 2 := by
  norm_num [run, step, initState, onRobotClick, activateRobotHelpMode,
    autoClosePhoneHologram, handlePhoneClick, enterPhoneMode, exitPhoneMode,
    activeModeCount, hologramFocusActive, agentHelpActive, deviceFocusActive]

/-- C1 (amended): pre-emption holds on hologram entry — processing a
hologram-panel click always leaves agent-help mode off, and leaves device
focus off whenever the phone overlay was visible — but it does NOT hold for
all request sequences, since a phone click during agent-help (and an agent
click while the phone overlay is not yet visible) stacks a second
non-Default mode on top of the first. -/
theorem hologram_entry_preempts (s : OfficeState) (i : Fin 4) :
    agentHelpActive (step (Event.clickHologram i) s) = false ∧
    (s.phoneHologramVisible = true →
      deviceFocusActive (step (Event.clickHologram i) s) = false) := by
  constructor
  · show (focusOnHologramScreen i s).robotInteractionMode = false
    rw [focusOnHologramScreen]
    dsimp only
    split
    · exact deactivateRobotHelpMode_mode _
    · rename_i h
      simpa using h
  · intro hv
    show (focusOnHologramScreen i s).phoneInteractionMode = false
    rw [focusOnHologramScreen]
    dsimp only
    split
    · rw [deactivateRobotHelpMode_phone, autoClosePhoneHologram_phone, hv]
      simp
    · rw [autoClosePhoneHologram_phone, hv]
      simp

/-- C1 witness: clicking hologram panel 0 in a state with agent help active
and the phone overlay visible clears both other modes. -/
theorem hologram_entry_preempts_witness :
    agentHelpActive (step (Event.clickHologram 0) demoState) = false ∧
    deviceFocusActive (step (Event.clickHologram 0) demoState) = false := by
  exact ⟨(hologram_entry_preempts demoState 0).1,
         (hologram_entry_preempts demoState 0).2 rfl⟩

/-- C2 counterexample: (a) after orbiting the camera to `(5, 9, 13)`,
entering hologram focus and exiting via the back affordance animates the
camera to the fixed default pose, NOT back to the pre-entry pose (hologram
entry never snapshots the camera); (b) a phone focus round trip back to
Default leaves the saved session context in place instead of clearing it. -/
theorem roundtrip_restore_counterexample :
    (run [Event.moveCamera ⟨5, 9, 13⟩ ⟨1, 5, 0⟩, Event.clickHologram 0,
        Event.clickBack] (initState centreDraws)).cameraPos
      ≠ (⟨5, 9, 13⟩ : Vec3) ∧
    (run [Event.moveCamera ⟨5, 9, 13⟩ ⟨1, 5, 0⟩, Event.clickPhone,
        Event.clickPhone] (initState centreDraws)).originalCameraPosition
      ≠ none := by
  constructor
  · norm_num [run, step, initState, focusOnHologramScreen,
      autoClosePhoneHologram, deactivateRobotHelpMode, deactivateHologram,
      returnToDefaultView, defaultCameraPosition, defaultCameraTarget,
      Vec3.mk.injEq]
  · norm_num [run, step, initState, handlePhoneClick, enterPhoneMode,
      exitPhoneMode]
    simp

/-- C2 (amended): a device-focus round trip and an agent-help round trip
each animate the camera and orbit target back to the pose saved at entry;
a hologram-focus exit instead animates to the fixed default pose
`(0, 8, 12)` / `(0, 5, -1.5)` regardless of the pre-entry pose (no snapshot
is taken at hologram entry); and neither exit clears the saved session
context. -/
theorem roundtrip_restore_amended (s : OfficeState) (now : ℚ) (i : Fin 4) :
    (s.phoneInteractionMode = false →
      (step Event.clickPhone (step Event.clickPhone s)).cameraPos
        = s.cameraPos ∧
      (step Event.clickPhone (step Event.clickPhone s)).controlsTarget
        = s.controlsTarget) ∧
    (s.robotInteractionMode = false → s.phoneHologramVisible = false →
      (step Event.clickHelpResponse
        (step (Event.clickRobot now) s)).cameraPos = s.cameraPos ∧
      (step Event.clickHelpResponse
        (step (Event.clickRobot now) s)).controlsTarget = s.controlsTarget) ∧
    ((step Event.clickBack (step (Event.clickHologram i) s)).cameraPos
        = defaultCameraPosition ∧
     (step Event.clickBack (step (Event.clickHologram i) s)).controlsTarget
        = defaultCameraTarget) ∧
    (s.phoneInteractionMode = true →
      (step Event.clickPhone s).originalCameraPosition
        = s.originalCameraPosition ∧
      (step Event.clickPhone s).originalCameraTarget
        = s.originalCameraTarget) ∧
    (s.robotInteractionMode = true →
      (step Event.clickHelpResponse s).originalCameraPosition
        = s.originalCameraPosition ∧
      (step Event.clickHelpResponse s).originalCameraTarget
        = s.originalCameraTarget) := by
  refine ⟨?_, ?_, ⟨rfl, rfl⟩, ?_, ?_⟩
  · intro hp
    simp [step, handlePhoneClick, enterPhoneMode, exitPhoneMode, hp]
  · intro hr hv
    simp [step, onRobotClick, autoClosePhoneHologram, activateRobotHelpMode,
      onHelpResponseClick, deactivateRobotHelpMode, hr, hv]
  · intro hp
    simp [step, handlePhoneClick, exitPhoneMode, hp]
  · intro hr
    simp [step, onHelpResponseClick, deactivateRobotHelpMode, hr]

/-- C2 witness: the device-focus and agent-help round trips from the initial
state restore the default camera pose, and a phone exit from `demoState`
leaves its saved snapshot `(1, 2, 3)` in place. -/
theorem roundtrip_restore_amended_witness :
    (step Event.clickPhone
      (step Event.clickPhone (initState centreDraws))).cameraPos
      = (initState centreDraws).cameraPos ∧
    (step Event.clickHelpResponse
      (step (Event.clickRobot 0) (initState centreDraws))).cameraPos
      = (initState centreDraws).cameraPos ∧
    (step Event.clickPhone demoState).originalCameraPosition
      = demoState.originalCameraPosition := by
  exact ⟨((roundtrip_restore_amended (initState centreDraws) 0 0).1 rfl).1,
    ((roundtrip_restore_amended (initState centreDraws) 0 0).2.1 rfl rfl).1,
    ((roundtrip_restore_amended demoState 0 0).2.2.2.1 rfl).1⟩

/-- `onRobotClick` does not touch hologram tracking. -/
theorem onRobotClick_tracking (now : ℚ) (s : OfficeState) :
    (onRobotClick now s).isHologramActive = s.isHologramActive := by
  rw [onRobotClick]
  split
  · rfl
  · rw [activateRobotHelpMode]
    split <;> exact autoClosePhoneHologram_tracking s

/-- `handlePhoneClick` does not touch hologram tracking. -/
theorem handlePhoneClick_tracking (s : OfficeState) :
    (handlePhoneClick s).isHologramActive = s.isHologramActive := by
  rw [handlePhoneClick]
  split <;> rfl

/-- `onHelpResponseClick` does not touch hologram tracking. -/
theorem onHelpResponseClick_tracking (s : OfficeState) :
    (onHelpResponseClick s).isHologramActive = s.isHologramActive := by
  rw [onHelpResponseClick]
  split
  · exact deactivateRobotHelpMode_tracking s
  · rfl

/-- The hologram upkeep never raises tracking. -/
theorem trackingUpkeep_tracking_le (t : OfficeState) :
    (trackingUpkeep t).isHologramActive = true → t.isHologramActive = true
      := by
  rw [trackingUpkeep]
  split
  · split
    · split
      · intro h
        exact h
      · intro h
        simp [deactivateHologram] at h
    · intro h
      exact h
  · intro h
    exact h

/-- The frame tick never raises hologram tracking. -/
theorem tickStep_tracking_le (sqrtQ : ℚ → ℚ) (rnd : ℕ → ℚ × ℚ) (r now : ℚ)
    (s : OfficeState) :
    (tickStep sqrtQ rnd r now s).isHologramActive = true →
    s.isHologramActive = true := by
  rw [tickStep]
  dsimp only
  intro h
  have h2 := trackingUpkeep_tracking_le _ h
  revert h2
  split
  · rw [deactivateRobotHelpMode_tracking]
    intro h2
    exact h2
  · intro h2
    exact h2

/-- C4: the continuous camera-tracking flag for the focused hologram panel
is raised only by the entry animation's completion event — processing any
other event (including the hologram click that starts the focus, which
explicitly leaves tracking off) never turns the flag on. -/
theorem tracking_waits_for_completion :
    (∀ (s : OfficeState) (e : Event), e ≠ Event.focusAnimComplete →
      (step e s).isHologramActive = true → s.isHologramActive = true) ∧
    (∀ (s : OfficeState) (i : Fin 4),
      (step (Event.clickHologram i) s).isHologramActive = false) := by
  constructor
  · intro s e hne
    cases e with
    | clickHologram i => intro h; exact absurd h (by simp [step,
        focusOnHologramScreen])
    | clickRobot now => intro h; rwa [show step (Event.clickRobot now) s
        = onRobotClick now s from rfl, onRobotClick_tracking] at h
    | clickPhone => intro h; rwa [show step Event.clickPhone s
        = handlePhoneClick s from rfl, handlePhoneClick_tracking] at h
    | clickBack => intro h; exact absurd h (by simp [step,
        returnToDefaultView, deactivateHologram])
    | clickHelpResponse => intro h; rwa [show step Event.clickHelpResponse s
        = onHelpResponseClick s from rfl, onHelpResponseClick_tracking] at h
    | moveCamera p t => intro h; exact h
    | focusAnimComplete => exact absurd rfl hne
    | phoneAnimComplete =>
      intro h
      rw [show step Event.phoneAnimComplete s = onPhoneAnimComplete s
        from rfl, onPhoneAnimComplete] at h
      revert h
      split <;> intro h <;> exact h
    | tick now r rnd sqrtQ => exact tickStep_tracking_le sqrtQ rnd r now s
  · intro s i
    rfl

/-- The hologram upkeep does not touch agent-help state. -/
theorem trackingUpkeep_robot (t : OfficeState) :
    (trackingUpkeep t).robotInteractionMode = t.robotInteractionMode := by
  rw [trackingUpkeep]
  split
  · split
    · split <;> rfl
    · rfl
  · rfl

/-- Characterisation of the auto-exit policy while a help session with entry
time `t0` is active: it fires exactly after the 3000 ms grace period once
the camera is more than 25 units or the orbit target more than 20 units
from the agent. -/
theorem shouldAutoCloseRobotHelp_iff (now : ℚ) (s : OfficeState) (t0 : ℚ)
    (hmode : s.robotInteractionMode = true)
    (hstart : s.robotHelpModeStartTime = some t0) :
    shouldAutoCloseRobotHelp now s = true ↔
      (3000 ≤ now - t0 ∧
        (25 ^ 2 < Vec3.distSq s.cameraPos (robotWorldPos s) ∨
         20 ^ 2 < Vec3.distSq s.controlsTarget (robotWorldPos s))) := by
  rw [shouldAutoCloseRobotHelp, hmode, hstart]
  simp only [Bool.not_true, Bool.false_eq_true, if_false, Option.getD_some]
  split
  · rename_i hg
    constructor
    · intro h
      simp at h
    · intro h
      linarith [h.1]
  · rename_i hg
    push_neg at hg
    simp only [Bool.or_eq_true, decide_eq_true_eq]
    constructor
    · intro h
      exact ⟨hg, h⟩
    · intro h
      exact h.2

/-- C5: while an agent-help session is active, the frame tick force-exits
the mode exactly when the grace period of 3000 ms since entry has passed AND
the camera is more than 25 units, or the orbit target more than 20 units,
from the agent; in particular no tick within the first 3000 ms exits the
mode, however far the camera has moved. -/
theorem agent_help_auto_exit (s : OfficeState) (now r t0 : ℚ)
    (rnd : ℕ → ℚ × ℚ) (sqrtQ : ℚ → ℚ)
    (hmode : s.robotInteractionMode = true)
    (hstart : s.robotHelpModeStartTime = some t0) :
    ((step (Event.tick now r rnd sqrtQ) s).robotInteractionMode = false ↔
      (3000 ≤ now - t0 ∧
        (25 ^ 2 < Vec3.distSq s.cameraPos (robotWorldPos s) ∨
         20 ^ 2 < Vec3.distSq s.controlsTarget (robotWorldPos s)))) := by
  have hnav : updateRobotMovement sqrtQ rnd r s.robotInteractionMode now
      s.robotNav = s.robotNav := by
    rw [hmode]
    rfl
  have hs1 : ({ s with robotNav :=
      updateRobotMovement sqrtQ rnd r s.robotInteractionMode now s.robotNav }
      : OfficeState) = s := by
    rw [hnav]
  rw [show step (Event.tick now r rnd sqrtQ) s = tickStep sqrtQ rnd r now s
    from rfl, tickStep]
  dsimp only
  rw [hs1, trackingUpkeep_robot, hmode]
  simp only [Bool.true_and]
  by_cases hc : shouldAutoCloseRobotHelp now s = true
  · rw [if_pos hc, deactivateRobotHelpMode_mode]
    constructor
    · intro _
      exact (shouldAutoCloseRobotHelp_iff now s t0 hmode hstart).mp hc
    · intro _
      rfl
  · rw [if_neg hc, hmode]
    constructor
    · intro h
      exact absurd h (by simp)
    · intro hr
      exact absurd ((shouldAutoCloseRobotHelp_iff now s t0 hmode
        hstart).mpr hr) hc

/-- C5 witness: in a help session entered at time 0 with the camera 100
units from the agent, the tick at `now = 3000` (grace period just elapsed)
force-exits the mode. -/
theorem agent_help_auto_exit_witness :
    (step (Event.tick 3000 0 centreDraws (constSqrt 8))
      helpState).robotInteractionMode = false := by
  exact (agent_help_auto_exit helpState 3000 0 0 centreDraws (constSqrt 8)
    rfl rfl).mpr
    (by norm_num [Vec3.distSq, robotWorldPos, helpState, robotPosY])

/-- C9: agent-help entry and device-focus entry write the camera snapshot
into the same shared field pair; entering device focus while the agent-help
snapshot is held overwrites it with the current (help-framing) pose, the
following help exit restores the camera to that most recent snapshot rather
than the pose saved at the first non-Default entry, and the exit leaves the
snapshot fields populated. -/
theorem shared_snapshot_overwrite (s : OfficeState) (now : ℚ)
    (hr : s.robotInteractionMode = false)
    (hp : s.phoneInteractionMode = false)
    (hv : s.phoneHologramVisible = false) :
    (step (Event.clickRobot now) s).originalCameraPosition
      = some s.cameraPos ∧
    (step Event.clickPhone
        (step (Event.clickRobot now) s)).originalCameraPosition
      = some (step (Event.clickRobot now) s).cameraPos ∧
    (step Event.clickHelpResponse
        (step Event.clickPhone (step (Event.clickRobot now) s))).cameraPos
      = (step (Event.clickRobot now) s).cameraPos ∧
    (step Event.clickHelpResponse
        (step Event.clickPhone
          (step (Event.clickRobot now) s))).originalCameraPosition
      = some (step (Event.clickRobot now) s).cameraPos := by
  refine ⟨?_, ?_, ?_, ?_⟩ <;>
    simp [step, onRobotClick, autoClosePhoneHologram, activateRobotHelpMode,
      handlePhoneClick, enterPhoneMode, exitPhoneMode, onHelpResponseClick,
      deactivateRobotHelpMode, hr, hp, hv]

/-- C9 witness: running the overwrite scenario from the freshly loaded
scene, the help exit lands the camera on the pose the phone entry saved. -/
theorem shared_snapshot_overwrite_witness :
    (step (Event.clickRobot 0) (initState centreDraws)).originalCameraPosition
      = some (initState centreDraws).cameraPos ∧
    (step Event.clickHelpResponse
        (step Event.clickPhone
          (step (Event.clickRobot 0) (initState centreDraws)))).cameraPos
      = (step (Event.clickRobot 0) (initState centreDraws)).cameraPos := by
  exact ⟨(shared_snapshot_overwrite (initState centreDraws) 0 rfl rfl rfl).1,
    (shared_snapshot_overwrite (initState centreDraws) 0 rfl rfl rfl).2.2.1⟩

/-- C4 witness: applying the claim to a camera-move event on a state whose
panel tracking is already on confirms that the flag must have been on before
the event. -/
theorem tracking_waits_for_completion_witness :
    ({ demoState with isHologramActive := true }
      : OfficeState).isHologramActive = true := by
  exact tracking_waits_for_completion.1
    { demoState with isHologramActive := true }
    (Event.moveCamera ⟨0, 0, 0⟩ ⟨0, 0, 0⟩) (by simp) rfl

end Portfolio
